import Mathlib

set_option maxRecDepth 8000

/-!
Shallow embedding of the `<counter-app>` web component (src/counter-app.js).

The component state consists of four numeric fields `_counter`, `_start`,
`_min`, `_max`; the spec declares all four integer, so they are modelled as
`Int`.  Attribute parsing (`_numAttr`), the lifecycle callbacks
(`connectedCallback`, `attributeChangedCallback`), the two transitions
(`_change`, `_doReset`) and the rendering sync (`_update`) are embedded below.
Transitions also return the number of times the celebratory effect
(`_makeItRain`) is invoked, so that effect-count claims are statable.
-/

/-- State of the widget: the four numeric fields of the component
(`this._counter`, `this._start`, `this._min`, `this._max`). -/
structure CounterState where
  counter : Int
  start : Int
  min : Int
  max : Int
deriving DecidableEq

/-- The four observed attribute names (`observedAttributes`). -/
inductive AttrName where
  | counter
  | start
  | min
  | max
deriving DecidableEq

/-- Whitespace characters stripped by JS `Number` conversion (ASCII subset). -/
def isJsWs (c : Char) : Bool :=
  c = ' ' || c = '\t' || c = '\n' || c = '\r'

/-- Strip leading and trailing whitespace from a character list. -/
def trimChars (cs : List Char) : List Char :=
  ((cs.dropWhile isJsWs).reverse.dropWhile isJsWs).reverse

/-- Value of a nonempty all-digit character list, `none` otherwise. -/
def decNat? (cs : List Char) : Option Nat :=
  if cs = [] then none
  else if cs.all Char.isDigit then
    some (cs.foldl (fun n c => n * 10 + (c.toNat - 48)) 0)
  else none

/-- Modelled from JS semantics: `Number(v)` on an attribute string, restricted
to the integer-valued fragment this component's integer state uses.  A string
that is empty or all whitespace converts to the finite number `0`; an optional
sign followed by decimal digits converts to that integer; anything else
(including `Infinity` and `NaN`-producing strings) is non-finite, returned as
`none`.  Strings denoting non-integral finite numbers are outside the model. -/
def jsNumber (s : String) : Option Int :=
  match trimChars s.data with
  | [] => some 0
  | c :: rest =>
    if c = '-' then (decNat? rest).map (fun n => -(n : Int))
    else if c = '+' then (decNat? rest).map (fun n => (n : Int))
    else (decNat? (c :: rest)).map (fun n => (n : Int))

/-- `_numAttr(name, fallback)`: the attribute value (`none` when the attribute
is absent) is converted with `Number`; a non-finite result falls back. -/
def numAttr (v : Option String) (fallback : Int) : Int :=
  match v with
  | none => fallback
  | some s => (jsNumber s).getD fallback

/-- Defaults assigned in the constructor: `_counter = 0`, `_start = 0`,
`_min = 0`, `_max = 10`. -/
def initState : CounterState := ⟨0, 0, 0, 10⟩

/-- The initial attribute configuration visible at attach time: each observed
attribute either absent (`none`) or a string. -/
structure AttrConfig where
  counter : Option String
  start : Option String
  min : Option String
  max : Option String
deriving DecidableEq

/-- `connectedCallback()`: each field is initialized from its attribute with
the current field as fallback, in source order; note the fallback for
`_start` is the just-updated `_counter`, not the previous `_start`. -/
def connected (a : AttrConfig) (st : CounterState) : CounterState :=
  let c := numAttr a.counter st.counter
  let s := numAttr a.start c
  let lo := numAttr a.min st.min
  let hi := numAttr a.max st.max
  ⟨c, s, lo, hi⟩

/-- `attributeChangedCallback(name, oldV, newV)`: the named field is re-read
from the attribute (whose value is now `v`) with the field's previous value as
fallback.  The `oldV === newV` early return only skips the state-identical
re-parse and is not modelled separately. -/
def attrChanged (st : CounterState) (name : AttrName) (v : Option String) :
    CounterState :=
  match name with
  | .counter => { st with counter := numAttr v st.counter }
  | .start => { st with start := numAttr v st.start }
  | .min => { st with min := numAttr v st.min }
  | .max => { st with max := numAttr v st.max }

/-- Projection of the field an attribute name governs. -/
def fieldOf (st : CounterState) : AttrName → Int
  | .counter => st.counter
  | .start => st.start
  | .min => st.min
  | .max => st.max

/-- `_change(delta)`: `next = _counter + delta`; out-of-range `next` returns
with no state change; otherwise `_counter = next` and, when the new value is
exactly 21, `_makeItRain()` is invoked once.  The second component counts
`_makeItRain` invocations. -/
def change (st : CounterState) (delta : Int) : CounterState × Nat :=
  let next := st.counter + delta
  if next > st.max ∨ next < st.min then (st, 0)
  else ({ st with counter := next }, if next = 21 then 1 else 0)

/-- `_doReset()`: `_counter = Math.min(_max, Math.max(_min, _start))`; it
never invokes `_makeItRain`. -/
def doReset (st : CounterState) : CounterState × Nat :=
  ({ st with counter := Min.min st.max (Max.max st.min st.start) }, 0)

/-- Clamp of `x` into `[lo, hi]`, as the spec words it. -/
def clampInt (x lo hi : Int) : Int :=
  if x < lo then lo else if hi < x then hi else x

/-- `_update()`: the increment button's `disabled` flag, `_counter >= _max`. -/
def incDisabled (st : CounterState) : Bool :=
  decide (st.counter ≥ st.max)

/-- `_update()`: the decrement button's `disabled` flag, `_counter <= _min`. -/
def decDisabled (st : CounterState) : Bool :=
  decide (st.counter ≤ st.min)

/-- The color-state classes of the spec's priority list (the bold modifier is
not one of them). -/
def colorStateClasses : List String := ["at-18", "at-21", "at-min", "at-max"]

/-- `_update()`: the class list assigned to the number element after
`className = ''`: the `if`/`else if` chain adds at most one color class
(18, then 21, then min, then max), and `bold` is added independently when the
value sits at either bound. -/
def numClasses (st : CounterState) : List String :=
  (if st.counter = 18 then ["at-18"]
   else if st.counter = 21 then ["at-21"]
   else if st.counter = st.min then ["at-min"]
   else if st.counter = st.max then ["at-max"]
   else [])
  ++ (if st.counter = st.min ∨ st.counter = st.max then ["bold"] else [])

/-- An externally triggerable operation on an attached widget: a button or
key step, the reset control, or an external attribute change. -/
inductive Op where
  | step (delta : Int)
  | reset
  | attr (name : AttrName) (v : Option String)
deriving DecidableEq

/-- Whether an operation is a transition in the spec's sense (a state change
of `value` via step or reset, not an attribute change). -/
def Op.isTransition : Op → Bool
  | .step _ => true
  | .reset => true
  | .attr _ _ => false

/-- Apply one operation to the state. -/
def applyOp (st : CounterState) : Op → CounterState
  | .step d => (change st d).1
  | .reset => (doReset st).1
  | .attr n v => attrChanged st n v

/-- Run a sequence of operations. -/
def run (st : CounterState) : List Op → CounterState
  | [] => st
  | op :: ops => run (applyOp st op) ops

/-- Iterate `_change(+1)` `n` times, accumulating the `_makeItRain`
invocation count. -/
def stepsPlus : Nat → CounterState → CounterState × Nat
  | 0, st => (st, 0)
  | Nat.succ n, st =>
    let p := change st 1
    let q := stepsPlus n p.1
    (q.1, p.2 + q.2)

/-! Helper lemmas shared by the claim theorems. -/

/-- JS `Number('')` is the finite number 0, so the empty attribute string
parses to `some 0`. -/
lemma jsNumber_empty : jsNumber "" = some 0 := rfl

/-- An attribute change whose string is non-finite under `Number` leaves the
whole state unchanged: `_numAttr` returns the fallback, the field's previous
value. -/
lemma attrChanged_invalid (st : CounterState) (name : AttrName) (s : String)
    (h : jsNumber s = none) : attrChanged st name (some s) = st := by
  cases name <;> simp [attrChanged, numAttr, h]

/-- A single step or reset operation keeps `min` and `max` fixed and keeps the
counter inside `[min, max]`, provided the bounds are ordered and the counter
started inside them. -/
lemma transition_preserves (st : CounterState) (op : Op)
    (ht : op.isTransition = true) (hmm : st.min ≤ st.max)
    (h1 : st.min ≤ st.counter) (h2 : st.counter ≤ st.max) :
    (applyOp st op).min = st.min ∧ (applyOp st op).max = st.max ∧
    st.min ≤ (applyOp st op).counter ∧ (applyOp st op).counter ≤ st.max := by
  cases op with
  | step d =>
    simp only [applyOp, change]
    split_ifs <;> simp_all
  | reset =>
    refine ⟨rfl, rfl, ?_, ?_⟩
    all_goals (simp only [applyOp, doReset]; omega)
  | attr n v => simp [Op.isTransition] at ht

/-- C1 (counterexample): the claim quantifies over sequences that include
external attribute-change operations, but `attributeChangedCallback` never
clamps.  From the default initial configuration, one external change of the
`counter` attribute to `"50"` yields a state with `min = 0 ≤ max = 10` and
`counter = 50 > max`, violating `min ≤ value ≤ max`. -/
theorem C1_counterexample_attr_breaks_invariant :
    (run (connected ⟨none, none, none, none⟩ initState)
        [Op.attr AttrName.counter (some "50")]).min ≤
      (run (connected ⟨none, none, none, none⟩ initState)
        [Op.attr AttrName.counter (some "50")]).max
    ∧ ¬ ((run (connected ⟨none, none, none, none⟩ initState)
        [Op.attr AttrName.counter (some "50")]).counter ≤
      (run (connected ⟨none, none, none, none⟩ initState)
        [Op.attr AttrName.counter (some "50")]).max) := by decide

/-- C1 (amended): for every state with ordered bounds whose counter lies in
`[min, max]`, every sequence of step and reset operations (the spec's
transitions, attribute changes excluded) keeps `min ≤ value ≤ max`. -/
theorem C1_step_reset_invariant (st : CounterState) (ops : List Op)
    (hops : ∀ op ∈ ops, op.isTransition = true)
    (hmm : st.min ≤ st.max)
    (h1 : st.min ≤ st.counter) (h2 : st.counter ≤ st.max) :
    (run st ops).min ≤ (run st ops).counter ∧
    (run st ops).counter ≤ (run st ops).max := by
  induction ops generalizing st with
  | nil => exact ⟨h1, h2⟩
  | cons op ops ih =>
    simp only [run]
    have ht := hops op (List.mem_cons_self _ _)
    obtain ⟨e1, e2, p1, p2⟩ := transition_preserves st op ht hmm h1 h2
    exact ih (applyOp st op) (fun o ho => hops o (List.mem_cons_of_mem _ ho))
      (by rw [e1, e2]; exact hmm) (by rw [e1]; exact p1) (by rw [e2]; exact p2)

/-- C1 (witness): the invariant theorem instantiated at state
`(3, 5, 0, 10)` with one step up followed by a reset. -/
theorem C1_step_reset_invariant_witness :
    (run ⟨3, 5, 0, 10⟩ [Op.step 1, Op.reset]).min ≤
      (run ⟨3, 5, 0, 10⟩ [Op.step 1, Op.reset]).counter ∧
    (run ⟨3, 5, 0, 10⟩ [Op.step 1, Op.reset]).counter ≤
      (run ⟨3, 5, 0, 10⟩ [Op.step 1, Op.reset]).max :=
  C1_step_reset_invariant ⟨3, 5, 0, 10⟩ [Op.step 1, Op.reset]
    (by decide) (by decide) (by decide) (by decide)

/-- C2: a step whose target `value + delta` falls outside `[min, max]` leaves
the entire state unchanged and invokes no effect; in particular `step(+1)` at
`value = max` and `step(-1)` at `value = min` are no-ops. -/
theorem C2_out_of_range_noop :
    (∀ (st : CounterState) (delta : Int), (delta = -1 ∨ delta = 1) →
      (st.counter + delta > st.max ∨ st.counter + delta < st.min) →
      change st delta = (st, 0))
    ∧ (∀ st : CounterState, st.counter = st.max → change st 1 = (st, 0))
    ∧ (∀ st : CounterState, st.counter = st.min → change st (-1) = (st, 0)) := by
  refine ⟨?_, ?_, ?_⟩
  · intro st delta _ hout
    simp only [change, if_pos hout]
  · intro st h
    simp only [change]
    rw [if_pos]
    omega
  · intro st h
    simp only [change]
    rw [if_pos]
    omega

/-- C2 (witness): `step(+1)` at `value = max = 10` rejected, state intact. -/
theorem C2_out_of_range_noop_witness :
    change ⟨10, 7, 0, 10⟩ 1 = (⟨10, 7, 0, 10⟩, 0) :=
  C2_out_of_range_noop.2.1 ⟨10, 7, 0, 10⟩ rfl

/-- C3: with ordered bounds, `reset()` sets the counter to
`clamp(start, min, max)`; in particular `start = 5, min = 0, max = 10` with
current value 3 resets to 5. -/
theorem C3_reset_clamps :
    (∀ st : CounterState, st.min ≤ st.max →
      (doReset st).1.counter = clampInt st.start st.min st.max)
    ∧ (doReset ⟨3, 5, 0, 10⟩).1.counter = 5 := by
  refine ⟨?_, by decide⟩
  intro st hmm
  simp only [doReset, clampInt]
  split_ifs <;> omega

/-- C3 (witness): the clamp equation instantiated at state `(3, 5, 0, 10)`. -/
theorem C3_reset_clamps_witness :
    (doReset ⟨3, 5, 0, 10⟩).1.counter = clampInt 5 0 10 :=
  C3_reset_clamps.1 ⟨3, 5, 0, 10⟩ (by decide)

/-- C4 (counterexample): a reset from value 5 with `start = 21` inside bounds
`[0, 25]` is a transition whose resulting value is exactly 21, yet `_doReset`
invokes the celebratory effect zero times, refuting the claim that every such
transition invokes it. -/
theorem C4_counterexample_reset_no_confetti :
    (doReset ⟨5, 21, 0, 25⟩).1.counter = 21
    ∧ (doReset ⟨5, 21, 0, 25⟩).1.counter ≠ (5 : Int)
    ∧ (doReset ⟨5, 21, 0, 25⟩).2 = 0 := by decide

/-- C4 (amended): only step transitions trigger the effect: a step of ±1 whose
in-range target is exactly 21 invokes it exactly once, any other step invokes
it zero times, every reset invokes it zero times; Scenario B (21 increments
from `(0, 0, 0, 25)` reach 21 with exactly one invocation) holds. -/
theorem C4_confetti_on_step_only :
    (∀ (st : CounterState) (delta : Int), (delta = -1 ∨ delta = 1) →
      (change st delta).2 =
        if st.min ≤ st.counter + delta ∧ st.counter + delta ≤ st.max ∧
            st.counter + delta = 21 then 1 else 0)
    ∧ (∀ st : CounterState, (doReset st).2 = 0)
    ∧ stepsPlus 21 ⟨0, 0, 0, 25⟩ = (⟨21, 0, 0, 25⟩, 1) := by
  refine ⟨?_, fun _ => rfl, by decide⟩
  intro st delta _
  simp only [change]
  split_ifs <;> simp_all
  omega

/-- C4 (witness): stepping up from 20 inside `[0, 25]` fires the effect. -/
theorem C4_confetti_on_step_only_witness :
    (change ⟨20, 0, 0, 25⟩ 1).2 =
      if (⟨20, 0, 0, 25⟩ : CounterState).min ≤
            (⟨20, 0, 0, 25⟩ : CounterState).counter + 1 ∧
          (⟨20, 0, 0, 25⟩ : CounterState).counter + 1 ≤
            (⟨20, 0, 0, 25⟩ : CounterState).max ∧
          (⟨20, 0, 0, 25⟩ : CounterState).counter + 1 = 21 then 1 else 0 :=
  C4_confetti_on_step_only.1 ⟨20, 0, 0, 25⟩ 1 (Or.inr rfl)

/-- C5: an attribute update whose value string is non-numeric (non-finite
under `Number`) leaves every field at its previous value, whichever of the
four configuration fields is targeted; the embedding is total, so no
exception path exists. -/
theorem C5_invalid_input_retained :
    ∀ (st : CounterState) (name : AttrName) (s : String),
      jsNumber s = none → attrChanged st name (some s) = st :=
  fun st name s h => attrChanged_invalid st name s h

/-- C5 (witness): setting the `min` attribute to `"abc"` changes nothing. -/
theorem C5_invalid_input_retained_witness :
    attrChanged ⟨1, 2, 3, 4⟩ AttrName.min (some "abc") = ⟨1, 2, 3, 4⟩ :=
  C5_invalid_input_retained ⟨1, 2, 3, 4⟩ AttrName.min "abc" (by decide)

/-- C6: at most one color-state class is ever assigned, chosen by first-match
priority over exact equality in the order 18, 21, min, max; in particular
when `value = 18 = min` the 18-class wins and `at-min` is absent. -/
theorem C6_color_first_match :
    (∀ st : CounterState,
        (numClasses st).countP (fun c => colorStateClasses.contains c) ≤ 1)
    ∧ (∀ st : CounterState, st.counter = 18 → st.counter = st.min →
        "at-18" ∈ numClasses st ∧ "at-min" ∉ numClasses st)
    ∧ (∀ st : CounterState, st.counter = 18 → "at-18" ∈ numClasses st)
    ∧ (∀ st : CounterState, st.counter = 21 → st.counter ≠ 18 →
        "at-21" ∈ numClasses st)
    ∧ (∀ st : CounterState, st.counter = st.min → st.counter ≠ 18 →
        st.counter ≠ 21 → "at-min" ∈ numClasses st)
    ∧ (∀ st : CounterState, st.counter = st.max → st.counter ≠ 18 →
        st.counter ≠ 21 → st.counter ≠ st.min → "at-max" ∈ numClasses st) := by
  refine ⟨?_, ?_, ?_, ?_, ?_, ?_⟩
  · intro st
    unfold numClasses
    split_ifs <;> decide
  · intro st h18 hmin
    constructor
    · simp [numClasses, h18]
    · simp only [numClasses, h18]
      split_ifs <;> decide
  · intro st h18
    simp [numClasses, h18]
  · intro st h21 h18
    simp [numClasses, h21, h18]
  · intro st hmin h18 h21
    simp only [numClasses, if_neg h18, if_neg h21, if_pos hmin]
    simp
  · intro st hmax h18 h21 hmin
    simp only [numClasses, if_neg h18, if_neg h21, if_neg hmin, if_pos hmax]
    simp

/-- C6 (witness): at `value = 18 = min` (state `(18, 0, 18, 20)`) the class
list contains `at-18` and not `at-min`. -/
theorem C6_color_first_match_witness :
    "at-18" ∈ numClasses ⟨18, 0, 18, 20⟩ ∧ "at-min" ∉ numClasses ⟨18, 0, 18, 20⟩ :=
  C6_color_first_match.2.1 ⟨18, 0, 18, 20⟩ rfl rfl

/-- C7: after every sync the increment control is disabled iff
`value ≥ max` and the decrement control iff `value ≤ min`; Scenario A: from
the defaults, ten increments reach 10 with the increment control disabled and
`at-max` plus `bold` applied. -/
theorem C7_disabled_iff_bounds :
    (∀ st : CounterState, incDisabled st = true ↔ st.counter ≥ st.max)
    ∧ (∀ st : CounterState, decDisabled st = true ↔ st.counter ≤ st.min)
    ∧ ((stepsPlus 10 ⟨0, 0, 0, 10⟩).1 = ⟨10, 0, 0, 10⟩
       ∧ incDisabled ⟨10, 0, 0, 10⟩ = true
       ∧ "at-max" ∈ numClasses ⟨10, 0, 0, 10⟩
       ∧ "bold" ∈ numClasses ⟨10, 0, 0, 10⟩) := by
  refine ⟨fun st => ?_, fun st => ?_, by decide⟩
  · simp [incDisabled]
  · simp [decDisabled]

/-- C8: reset is idempotent on the whole state: resetting twice equals
resetting once, since reset only rewrites the counter from the untouched
`start`, `min`, `max`. -/
theorem C8_reset_idempotent :
    ∀ st : CounterState, (doReset (doReset st).1).1 = (doReset st).1 :=
  fun _ => rfl

/-- C9: setting any of the four attributes to the empty string is accepted
and sets the field to 0 (JS `Number('')` is the finite number 0); exactly the
strings whose conversion is non-finite are rejected with fallback, and every
finite conversion is stored. -/
theorem C9_empty_string_accepted :
    (∀ (st : CounterState) (name : AttrName),
        fieldOf (attrChanged st name (some "")) name = 0)
    ∧ (∀ (st : CounterState) (name : AttrName) (s : String),
        jsNumber s = none → attrChanged st name (some s) = st)
    ∧ (∀ (st : CounterState) (name : AttrName) (s : String) (n : Int),
        jsNumber s = some n → fieldOf (attrChanged st name (some s)) name = n) := by
  refine ⟨?_, fun st name s h => attrChanged_invalid st name s h, ?_⟩
  · intro st name
    cases name <;> simp [attrChanged, fieldOf, numAttr, jsNumber_empty]
  · intro st name s n h
    cases name <;> simp [attrChanged, fieldOf, numAttr, h]

/-- C9 (witness): writing the empty string to the `min` attribute of state
`(1, 2, 3, 4)` stores 0, not the prior value 3. -/
theorem C9_empty_string_accepted_witness :
    fieldOf (attrChanged ⟨1, 2, 3, 4⟩ AttrName.min (some "")) AttrName.min = 0 :=
  C9_empty_string_accepted.2.2 ⟨1, 2, 3, 4⟩ AttrName.min "" 0 (by decide)

/-- C10: at attach time, a configured `counter` attribute with no `start`
attribute initializes `start` to the configured counter value (the `_start`
fallback in `connectedCallback` is the just-read `_counter`), so a subsequent
reset restores the configured value whenever it lies within the bounds. -/
theorem C10_start_inherits_counter :
    ∀ (c : String) (n : Int) (mn mx : Option String),
      jsNumber c = some n →
      (connected ⟨some c, none, mn, mx⟩ initState).counter = n
      ∧ (connected ⟨some c, none, mn, mx⟩ initState).start = n
      ∧ ((connected ⟨some c, none, mn, mx⟩ initState).min ≤ n →
         n ≤ (connected ⟨some c, none, mn, mx⟩ initState).max →
         (doReset (connected ⟨some c, none, mn, mx⟩ initState)).1.counter = n) := by
  intro c n mn mx h
  refine ⟨?_, ?_, ?_⟩
  · simp [connected, numAttr, h]
  · simp [connected, numAttr, h]
  · intro h1 h2
    simp only [connected, numAttr, h, Option.getD_some, doReset] at *
    omega

/-- C10 (witness): attaching with `counter="7"` and no `start` attribute, a
subsequent reset restores 7. -/
theorem C10_start_inherits_counter_witness :
    (doReset (connected ⟨some "7", none, none, none⟩ initState)).1.counter = 7 :=
  (C10_start_inherits_counter "7" 7 none none (by decide)).2.2
    (by decide) (by decide)
